import Mathlib

/-!
Verification development for the LG webOS TV adapter.

The definitions below are a shallow embedding of the adapter's JavaScript
source:

* `LgTvProp` — the property layer of lib/lg-tv-property.js (`setValue`).
* `LgTvDev` — the device layer of lib/lg-tv-device.js (`poll`,
  `performAction`, the constructor's initial-fetch sequence and its
  action declarations).
* `LgTvAdapter` — the adapter layer (`addDevice`, `removeThing`,
  discovery-driven session creation), embedded as a small-step event
  semantics: every asynchronous continuation of the JavaScript code
  (MAC resolution, key load, transport connect, initial fetches) is one
  event, and the scheduler chooses the interleaving, as the Node.js
  event loop does.

Asynchronous protocol exchanges are embedded by passing the outcome of
each request (the argument the transport would hand to the callback) as
an explicit parameter.
-/

namespace LgTvProp

/-- A JavaScript value as far as the adapter's property layer uses them:
strings, numbers, booleans and null.  Equality of `JsVal` models the
strict `===` comparison on these primitive values. -/
inductive JsVal where
  | str  : String → JsVal
  | num  : Int → JsVal
  | bool : Bool → JsVal
  | null : JsVal
deriving DecidableEq

/-- JavaScript truthiness of a `JsVal`, used by the `if (value)` test in
the `on` branch of `setValue`. -/
def jsTruthy : JsVal → Bool
  | .str s  => !(s = "")
  | .num n  => !(n = 0)
  | .bool b => b
  | .null   => false

/-- The state of one property record: its name, cached value and
read-only flag (lib/lg-tv-property.js fields `name`, `value`,
`readOnly`). -/
structure PropState where
  name : String
  value : JsVal
  readOnly : Bool
deriving DecidableEq

/-- `Property.setCachedValue`: overwrite the cached value. -/
def setCachedValue (p : PropState) (v : JsVal) : PropState :=
  { p with value := v }

/-- Outcome of the underlying asynchronous command (the value the
transport passes to the `cb(err)` callback, or the wake result for the
Wake-on-LAN path). -/
inductive CmdOutcome where
  | ok   : CmdOutcome
  | fail : String → CmdOutcome
deriving DecidableEq

/-- How the promise returned by `setValue` settles. -/
inductive SetValueResult where
  | rejectedReadOnly : SetValueResult
  | resolvedNoop     : SetValueResult
  | resolvedSet      : JsVal → SetValueResult
  | rejectedErr      : String → SetValueResult
  | pending          : SetValueResult
deriving DecidableEq

/-- Everything observable about one `setValue` call: the property state
afterwards, how the promise settled, the protocol commands issued over
the transport, the number of Wake-on-LAN packets sent, and the number of
`notifyPropertyChanged` notifications emitted. -/
structure SetValueOut where
  prop : PropState
  result : SetValueResult
  commands : List String
  wolWakes : Nat
  notifications : Nat
deriving DecidableEq

/-- The shared `cb(err)` callback of `setValue` applied after issuing
the given protocol commands: on error reject with a wrapped message, on
success update the cache, notify and resolve with the new value. -/
def setValueCb (p : PropState) (v : JsVal) (cmds : List String) (wol : Nat)
    (out : CmdOutcome) : SetValueOut :=
  match out with
  | .ok =>
      { prop := setCachedValue p v
        result := .resolvedSet v
        commands := cmds
        wolWakes := wol
        notifications := 1 }
  | .fail e =>
      { prop := p
        result := .rejectedErr ("Failed to set value: " ++ e)
        commands := cmds
        wolWakes := wol
        notifications := 0 }

/-- `LgTvProperty.setValue(value)` (lib/lg-tv-property.js lines 24-79).
Rejects read-only writes; resolves immediately when the new value equals
the cached one; otherwise issues the command selected by the property
name and settles through `setValueCb`.  The Wake-on-LAN branch maps its
own failure to the fixed message used by the source.  A writable name
outside the switch issues nothing and leaves the promise pending, as the
source does. -/
def setValue (p : PropState) (v : JsVal) (out : CmdOutcome) : SetValueOut :=
  if p.readOnly then
    { prop := p, result := .rejectedReadOnly, commands := [],
      wolWakes := 0, notifications := 0 }
  else if p.value ≠ v then
    if p.name = "volume" then
      setValueCb p v ["ssap://audio/setVolume"] 0 out
    else if p.name = "mute" then
      setValueCb p v ["ssap://audio/setMute"] 0 out
    else if p.name = "on" then
      if jsTruthy v then
        match out with
        | .ok =>
            { prop := setCachedValue p v
              result := .resolvedSet v
              commands := []
              wolWakes := 1
              notifications := 1 }
        | .fail _ =>
            { prop := p
              result := .rejectedErr "Failed to set value: Failed to wake device."
              commands := []
              wolWakes := 1
              notifications := 0 }
      else
        setValueCb p v ["ssap://system/turnOff"] 0 out
    else
      { prop := p, result := .pending, commands := [],
        wolWakes := 0, notifications := 0 }
  else
    { prop := p, result := .resolvedNoop, commands := [],
      wolWakes := 0, notifications := 0 }

/-- Whether a `setValue` result is a rejection carrying an error. -/
def SetValueResult.isRejectedErr : SetValueResult → Bool
  | .rejectedErr _ => true
  | _ => false

end LgTvProp

/-- C3: on a writable property, `setValue` called with the cached value
resolves immediately as a no-op: no protocol command, no Wake-on-LAN
packet, no notification, cache unchanged. -/
theorem setValue_noop_when_equal (p : LgTvProp.PropState) (v : LgTvProp.JsVal)
    (out : LgTvProp.CmdOutcome)
    (hro : p.readOnly = false) (heq : p.value = v) :
    LgTvProp.setValue p v out =
      { prop := p, result := .resolvedNoop, commands := [],
        wolWakes := 0, notifications := 0 } := by
  simp [LgTvProp.setValue, hro, heq]

/-- Witness for C3 at a concrete property and value. -/
theorem setValue_noop_when_equal_witness :
    LgTvProp.setValue ⟨"mute", .bool false, false⟩ (.bool false) .ok =
      { prop := ⟨"mute", .bool false, false⟩, result := .resolvedNoop,
        commands := [], wolWakes := 0, notifications := 0 } :=
  setValue_noop_when_equal ⟨"mute", .bool false, false⟩ (.bool false) .ok rfl rfl

/-- C4: on a writable property whose value differs from the write, an
acknowledged command updates the cache to the new value, resolves with
it and emits exactly one notification; a failed command rejects with an
error, leaves the cache unchanged and emits no notification (for the
`volume` and `mute` commands the rejection wraps the underlying error
verbatim). -/
theorem setValue_change_semantics (p : LgTvProp.PropState) (v : LgTvProp.JsVal)
    (e : String) (hro : p.readOnly = false) (hne : p.value ≠ v)
    (hname : p.name = "volume" ∨ p.name = "mute" ∨ p.name = "on") :
    ((LgTvProp.setValue p v .ok).prop = LgTvProp.setCachedValue p v ∧
     (LgTvProp.setValue p v .ok).result = .resolvedSet v ∧
     (LgTvProp.setValue p v .ok).notifications = 1) ∧
    ((LgTvProp.setValue p v (.fail e)).prop = p ∧
     ((LgTvProp.setValue p v (.fail e)).result).isRejectedErr = true ∧
     (LgTvProp.setValue p v (.fail e)).notifications = 0) ∧
    ((p.name = "volume" ∨ p.name = "mute") →
      (LgTvProp.setValue p v (.fail e)).result =
        .rejectedErr ("Failed to set value: " ++ e)) := by
  rcases hname with h | h | h
  · simp [LgTvProp.setValue, LgTvProp.setValueCb, hro, hne, h,
      LgTvProp.SetValueResult.isRejectedErr]
  · simp [LgTvProp.setValue, LgTvProp.setValueCb, hro, hne, h,
      LgTvProp.SetValueResult.isRejectedErr]
  · cases ht : LgTvProp.jsTruthy v <;>
      simp [LgTvProp.setValue, LgTvProp.setValueCb, hro, hne, h, ht,
        LgTvProp.SetValueResult.isRejectedErr]

/-- Witness for C4: `setValue` on cached `mute=false` with `true`. -/
theorem setValue_change_semantics_witness :
    ((LgTvProp.setValue ⟨"mute", .bool false, false⟩ (.bool true) .ok).prop =
       LgTvProp.setCachedValue ⟨"mute", .bool false, false⟩ (.bool true) ∧
     (LgTvProp.setValue ⟨"mute", .bool false, false⟩ (.bool true) .ok).result =
       .resolvedSet (.bool true) ∧
     (LgTvProp.setValue ⟨"mute", .bool false, false⟩ (.bool true) .ok).notifications = 1) ∧
    ((LgTvProp.setValue ⟨"mute", .bool false, false⟩ (.bool true) (.fail "boom")).prop =
       ⟨"mute", .bool false, false⟩ ∧
     ((LgTvProp.setValue ⟨"mute", .bool false, false⟩ (.bool true)
        (.fail "boom")).result).isRejectedErr = true ∧
     (LgTvProp.setValue ⟨"mute", .bool false, false⟩ (.bool true)
        (.fail "boom")).notifications = 0) ∧
    ((LgTvProp.PropState.name ⟨"mute", .bool false, false⟩ = "volume" ∨
      LgTvProp.PropState.name ⟨"mute", .bool false, false⟩ = "mute") →
      (LgTvProp.setValue ⟨"mute", .bool false, false⟩ (.bool true)
        (.fail "boom")).result =
        .rejectedErr ("Failed to set value: " ++ "boom")) :=
  setValue_change_semantics ⟨"mute", .bool false, false⟩ (.bool true) "boom"
    rfl (by decide) (Or.inr (Or.inl rfl))

namespace LgTvDev

open LgTvProp

/-- One entry of the fetched application list (`listApps` response):
its id and title. -/
structure AppEntry where
  id : String
  title : String
deriving DecidableEq

/-- The app-name lookup done with the foreground-app response:
`this.apps.filter((a) => a.id === data.appId)` and then
`app.length > 0 ? app[0].title : null`. -/
def lookupAppName (apps : List AppEntry) (appId : String) : JsVal :=
  match apps.filter (fun a => a.id == appId) with
  | [] => .null
  | a :: _ => .str a.title

/-- Result of one asynchronous protocol fetch: the error branch of the
callback or its data. -/
inductive Fetch (α : Type) where
  | err : Fetch α
  | ok  : α → Fetch α
deriving DecidableEq

/-- The responses the two requests of one poll cycle come back with:
`getForegroundAppInfo` yields `data.appId`, `getVolume` yields
`(data.volume, data.muted)`. -/
structure PollFetch where
  foreground : Fetch String
  volume : Fetch (Int × Bool)
deriving DecidableEq

/-- The cached values of the three polled properties. -/
structure DevProps where
  activeApp : JsVal
  volume : JsVal
  mute : JsVal
deriving DecidableEq

/-- The `getForegroundAppInfo` callback of `poll` (lg-tv-device.js lines
270-286): on error return; otherwise resolve the app name and, exactly
when it differs from the cache, update the cache and notify. -/
def pollForeground (apps : List AppEntry) (s : DevProps) (f : Fetch String) :
    DevProps × List String :=
  match f with
  | .err => (s, [])
  | .ok appId =>
      let name := lookupAppName apps appId
      if s.activeApp ≠ name then
        ({ s with activeApp := name }, ["activeApp"])
      else
        (s, [])

/-- The `getVolume` callback of `poll` (lg-tv-device.js lines 288-307):
on error return; otherwise diff volume then mute against the cache,
updating and notifying per changed property. -/
def pollVolume (s : DevProps) (f : Fetch (Int × Bool)) :
    DevProps × List String :=
  match f with
  | .err => (s, [])
  | .ok (vol, muted) =>
      let r1 :=
        if s.volume ≠ JsVal.num vol then
          ({ s with volume := JsVal.num vol }, ["volume"])
        else
          (s, [])
      let r2 :=
        if r1.1.mute ≠ JsVal.bool muted then
          ({ r1.1 with mute := JsVal.bool muted }, ["mute"])
        else
          (r1.1, [])
      (r2.1, r1.2 ++ r2.2)

/-- `LgTvDevice.poll` (lg-tv-device.js lines 269-308): one poll cycle,
given the two fetch responses; returns the property cache afterwards and
the names of the properties for which `notifyPropertyChanged` fired, in
order. -/
def poll (apps : List AppEntry) (s : DevProps) (f : PollFetch) :
    DevProps × List String :=
  let r1 := pollForeground apps s f.foreground
  let r2 := pollVolume r1.1 f.volume
  (r2.1, r1.2 ++ r2.2)

theorem pollForeground_volume (apps : List AppEntry) (s : DevProps)
    (f : Fetch String) : (pollForeground apps s f).1.volume = s.volume := by
  cases f with
  | err => rfl
  | ok a => simp only [pollForeground]; split <;> rfl

theorem pollForeground_mute (apps : List AppEntry) (s : DevProps)
    (f : Fetch String) : (pollForeground apps s f).1.mute = s.mute := by
  cases f with
  | err => rfl
  | ok a => simp only [pollForeground]; split <;> rfl

theorem pollForeground_notifies (apps : List AppEntry) (s : DevProps)
    (f : Fetch String) :
    (pollForeground apps s f).2 = [] ∨ (pollForeground apps s f).2 = ["activeApp"] := by
  cases f <;> simp [pollForeground]
  split <;> simp

theorem pollVolume_activeApp (s : DevProps) (f : Fetch (Int × Bool)) :
    (pollVolume s f).1.activeApp = s.activeApp := by
  cases f with
  | err => rfl
  | ok d => obtain ⟨vol, muted⟩ := d; simp only [pollVolume]; split <;> split <;> simp

theorem pollVolume_count_activeApp (s : DevProps) (f : Fetch (Int × Bool)) :
    (pollVolume s f).2.count "activeApp" = 0 := by
  cases f with
  | err => rfl
  | ok d => obtain ⟨vol, muted⟩ := d; simp only [pollVolume]; split <;> split <;> simp

end LgTvDev


/-- C5: in one poll cycle, each polled property notifies exactly once
when the fetched value differs from the cache (updating the cache to
the fetched value) and not at all otherwise; a failed fetch leaves the
affected properties and notifications untouched and is not fatal. -/
theorem poll_notify_iff_changed (apps : List LgTvDev.AppEntry)
    (s : LgTvDev.DevProps) (fg : LgTvDev.Fetch String)
    (fv : LgTvDev.Fetch (Int × Bool)) :
    (fg = .err →
       (LgTvDev.poll apps s ⟨fg, fv⟩).1.activeApp = s.activeApp ∧
       (LgTvDev.poll apps s ⟨fg, fv⟩).2.count "activeApp" = 0) ∧
    (∀ appId, fg = .ok appId →
       (LgTvDev.poll apps s ⟨fg, fv⟩).1.activeApp =
         LgTvDev.lookupAppName apps appId ∧
       (LgTvDev.poll apps s ⟨fg, fv⟩).2.count "activeApp" =
         (if s.activeApp = LgTvDev.lookupAppName apps appId then 0 else 1)) ∧
    (fv = .err →
       (LgTvDev.poll apps s ⟨fg, fv⟩).1.volume = s.volume ∧
       (LgTvDev.poll apps s ⟨fg, fv⟩).1.mute = s.mute ∧
       (LgTvDev.poll apps s ⟨fg, fv⟩).2.count "volume" = 0 ∧
       (LgTvDev.poll apps s ⟨fg, fv⟩).2.count "mute" = 0) ∧
    (∀ vol muted, fv = .ok (vol, muted) →
       (LgTvDev.poll apps s ⟨fg, fv⟩).1.volume = LgTvProp.JsVal.num vol ∧
       (LgTvDev.poll apps s ⟨fg, fv⟩).1.mute = LgTvProp.JsVal.bool muted ∧
       (LgTvDev.poll apps s ⟨fg, fv⟩).2.count "volume" =
         (if s.volume = LgTvProp.JsVal.num vol then 0 else 1) ∧
       (LgTvDev.poll apps s ⟨fg, fv⟩).2.count "mute" =
         (if s.mute = LgTvProp.JsVal.bool muted then 0 else 1)) := by
  refine ⟨?_, ?_, ?_, ?_⟩
  · rintro rfl
    simp [LgTvDev.poll, LgTvDev.pollForeground, LgTvDev.pollVolume_activeApp,
      LgTvDev.pollVolume_count_activeApp]
  · rintro appId rfl
    by_cases hc : s.activeApp = LgTvDev.lookupAppName apps appId <;>
      simp [LgTvDev.poll, LgTvDev.pollForeground, hc,
        LgTvDev.pollVolume_activeApp, LgTvDev.pollVolume_count_activeApp,
        List.count_append]
  · rintro rfl
    rcases LgTvDev.pollForeground_notifies apps s fg with hn | hn <;>
      simp [LgTvDev.poll, LgTvDev.pollVolume, hn,
        LgTvDev.pollForeground_volume, LgTvDev.pollForeground_mute]
  · rintro vol muted rfl
    have hv := LgTvDev.pollForeground_volume apps s fg
    have hm := LgTvDev.pollForeground_mute apps s fg
    rcases LgTvDev.pollForeground_notifies apps s fg with hn | hn <;>
      simp only [LgTvDev.poll, LgTvDev.pollVolume, hn, hv, hm] <;>
      split_ifs <;>
      simp_all [List.count_cons, List.count_append, List.count_nil]

/-- Witness for C5: a concrete poll cycle in which the foreground app
and volume change but mute does not. -/
theorem poll_notify_iff_changed_witness :
    (LgTvDev.poll [⟨"netflix", "Netflix"⟩]
        ⟨.str "YouTube", .num 10, .bool false⟩
        ⟨.ok "netflix", .ok (12, false)⟩).2.count "activeApp" = 1 ∧
    (LgTvDev.poll [⟨"netflix", "Netflix"⟩]
        ⟨.str "YouTube", .num 10, .bool false⟩
        ⟨.ok "netflix", .ok (12, false)⟩).2.count "volume" = 1 ∧
    (LgTvDev.poll [⟨"netflix", "Netflix"⟩]
        ⟨.str "YouTube", .num 10, .bool false⟩
        ⟨.ok "netflix", .ok (12, false)⟩).2.count "mute" = 0 ∧
    (LgTvDev.poll [⟨"netflix", "Netflix"⟩]
        ⟨.str "YouTube", .num 10, .bool false⟩
        ⟨.ok "netflix", .ok (12, false)⟩).1.volume = .num 12 := by
  have h := poll_notify_iff_changed [⟨"netflix", "Netflix"⟩]
    ⟨.str "YouTube", .num 10, .bool false⟩ (.ok "netflix") (.ok (12, false))
  obtain ⟨-, h2, -, h4⟩ := h
  obtain ⟨ha1, ha2⟩ := h2 "netflix" rfl
  obtain ⟨hv1, hv2, hv3, hv4⟩ := h4 12 false rfl
  refine ⟨?_, ?_, ?_, ?_⟩ <;> simp_all [LgTvDev.lookupAppName]

namespace LgTvDev

/-- Lifecycle marks applied to an action invocation: `action.start()`,
`action.finish()`, and the `action.status = 'error'` +
`actionNotify(action)` pair. -/
inductive ActMark where
  | started : ActMark
  | finished : ActMark
  | errored : ActMark
deriving DecidableEq

/-- Everything observable about one `performAction` call: the lifecycle
marks in order, the protocol commands issued through `client.request`,
whether `client.getSocket` was called, the pointer-socket sends
`(type, button name)`, and whether the returned promise resolved. -/
structure ActOut where
  marks : List ActMark
  commands : List String
  socketOpened : Bool
  socketSends : List (String × String)
  resolved : Bool
deriving DecidableEq

/-- The common request callback shape of `performAction`: the command
has been issued after the given marks; on error set the error status and
notify, otherwise finish; in both cases resolve. -/
def requestCb (pre : List ActMark) (cmds : List String)
    (out : Fetch Unit) : ActOut :=
  match out with
  | .ok _ =>
      { marks := pre ++ [.finished], commands := cmds,
        socketOpened := false, socketSends := [], resolved := true }
  | .err =>
      { marks := pre ++ [.errored], commands := cmds,
        socketOpened := false, socketSends := [], resolved := true }

/-- The keypress labels handled by a direct `client.request` case of the
`sendKeypress` switch, with their commands (lg-tv-device.js lines
464-500). -/
def knownSimpleKeys : List (String × String) :=
  [("Volume Up", "ssap://audio/volumeUp"),
   ("Volume Down", "ssap://audio/volumeDown"),
   ("Enter", "ssap://com.webos.service.ime/sendEnterKey"),
   ("Play", "ssap://media.controls/play"),
   ("Stop", "ssap://media.controls/stop"),
   ("Pause", "ssap://media.controls/pause"),
   ("Rewind", "ssap://media.controls/rewind"),
   ("Fast Forward", "ssap://media.controls/fastForward"),
   ("Power", "ssap://system/turnOff"),
   ("Channel Down", "ssap://tv/channelDown"),
   ("Channel Up", "ssap://tv/channelUp")]

/-- The keypress labels handled through the pointer input socket
(lg-tv-device.js lines 501-531). -/
def pointerKeys : List String :=
  ["Click", "Left", "Right", "Up", "Down", "Home", "Back", "Ok",
   "Dash", "Info"]

/-- The `enum` of the declared `sendKeypress` action input
(lg-tv-device.js lines 66-98).  The source sorts this list before
declaring it; sorting only permutes it, so membership is unaffected and
the literal order is kept here. -/
def sendKeypressEnum : List String :=
  ["Volume Up", "Volume Down", "Enter", "Delete", "Play", "Stop",
   "Pause", "Rewind", "Fast Forward", "Power", "Channel Down",
   "Channel Up", "Left", "Right", "Up", "Down", "Click", "Home",
   "Back", "Ok", "Dash", "Info"]

/-- Model of the JavaScript `String.prototype.toUpperCase()` call used
by the pointer-key branch (ASCII uppercasing). -/
def jsToUpperCase (s : String) : String := ⟨s.data.map Char.toUpper⟩

/-- The action names with a `case` in the `performAction` switch. -/
def handledActionNames : List String :=
  ["openUrl", "createToast", "tuneToChannel", "launchApp", "insertText",
   "deleteText", "sendKeypress"]

/-- `LgTvDevice.performAction(action)` (lg-tv-device.js lines 315-549),
given the fetched app list, the action name and input, the outcome of
the (single) `client.request` the handled branch would issue, and the
outcome of `client.getSocket` for pointer keys.  Notable source
behaviour embedded faithfully: the `deleteText` case issues its request
without calling `action.start()`; the pointer-socket success path sends
the button/click event and resolves without calling `action.finish()`;
the `default` cases set the error status without starting. -/
def performAction (apps : List AppEntry) (name : String)
    (input : LgTvProp.JsVal) (reqOut : Fetch Unit) (sockOut : Fetch Unit) :
    ActOut :=
  if name = "openUrl" then
    requestCb [.started] ["ssap://system.launcher/open"] reqOut
  else if name = "createToast" then
    requestCb [.started] ["ssap://system.notifications/createToast"] reqOut
  else if name = "tuneToChannel" then
    requestCb [.started] ["ssap://tv/openChannel"] reqOut
  else if name = "launchApp" then
    match apps.filter (fun a => LgTvProp.JsVal.str a.title == input) with
    | [] =>
        { marks := [.started, .errored], commands := [],
          socketOpened := false, socketSends := [], resolved := true }
    | _ :: _ =>
        requestCb [.started] ["ssap://system.launcher/launch"] reqOut
  else if name = "insertText" then
    requestCb [.started] ["ssap://com.webos.service.ime/insertText"] reqOut
  else if name = "deleteText" then
    requestCb [] ["ssap://com.webos.service.ime/deleteCharacters"] reqOut
  else if name = "sendKeypress" then
    match input with
    | .str k =>
        match knownSimpleKeys.find? (fun p => p.1 == k) with
        | some p => requestCb [.started] [p.2] reqOut
        | none =>
            if pointerKeys.contains k then
              match sockOut with
              | .err =>
                  { marks := [.started, .errored], commands := [],
                    socketOpened := true, socketSends := [],
                    resolved := true }
              | .ok _ =>
                  { marks := [.started], commands := [],
                    socketOpened := true,
                    socketSends :=
                      if k = "Click" then [("click", "")]
                      else [("button", jsToUpperCase k)],
                    resolved := true }
            else
              { marks := [.started, .errored], commands := [],
                socketOpened := false, socketSends := [], resolved := true }
    | _ =>
        { marks := [.started, .errored], commands := [],
          socketOpened := false, socketSends := [], resolved := true }
  else
    { marks := [.errored], commands := [],
      socketOpened := false, socketSends := [], resolved := true }

end LgTvDev

/-- C7: an unknown action name, an unrecognized keypress label, or a
`launchApp` input matching no fetched app all resolve with the
invocation in the error outcome (never finished) and, in these cases,
without issuing any protocol command or opening the pointer socket. -/
theorem performAction_invalid_inputs_error (apps : List LgTvDev.AppEntry)
    (input : LgTvProp.JsVal) (k : String)
    (reqOut sockOut : LgTvDev.Fetch Unit) :
    (∀ name, name ∉ LgTvDev.handledActionNames →
       LgTvDev.performAction apps name input reqOut sockOut =
         { marks := [.errored], commands := [], socketOpened := false,
           socketSends := [], resolved := true }) ∧
    (LgTvDev.knownSimpleKeys.find? (fun p => p.1 == k) = none →
     LgTvDev.pointerKeys.contains k = false →
       LgTvDev.performAction apps "sendKeypress" (.str k) reqOut sockOut =
         { marks := [.started, .errored], commands := [],
           socketOpened := false, socketSends := [], resolved := true }) ∧
    (apps.filter (fun a => LgTvProp.JsVal.str a.title == input) = [] →
       LgTvDev.performAction apps "launchApp" input reqOut sockOut =
         { marks := [.started, .errored], commands := [],
           socketOpened := false, socketSends := [], resolved := true }) := by
  refine ⟨?_, ?_, ?_⟩
  · intro name hname
    simp only [LgTvDev.handledActionNames, List.mem_cons, List.not_mem_nil,
      or_false, not_or] at hname
    obtain ⟨h1, h2, h3, h4, h5, h6, h7⟩ := hname
    simp [LgTvDev.performAction, h1, h2, h3, h4, h5, h6, h7]
  · intro hfind hptr
    have hk : k ∉ LgTvDev.pointerKeys := by simpa using hptr
    simp [LgTvDev.performAction, hfind, hk]
  · intro hfilter
    simp [LgTvDev.performAction, hfilter]

/-- Witness for C7: an unknown name, the unrecognized label "Banana",
and a `launchApp` lookup miss against a one-app list. -/
theorem performAction_invalid_inputs_error_witness :
    LgTvDev.performAction [⟨"netflix", "Netflix"⟩] "fooAction"
        (.str "NonexistentApp") (.ok ()) (.ok ()) =
      { marks := [.errored], commands := [], socketOpened := false,
        socketSends := [], resolved := true } ∧
    LgTvDev.performAction [⟨"netflix", "Netflix"⟩] "sendKeypress"
        (.str "Banana") (.ok ()) (.ok ()) =
      { marks := [.started, .errored], commands := [], socketOpened := false,
        socketSends := [], resolved := true } ∧
    LgTvDev.performAction [⟨"netflix", "Netflix"⟩] "launchApp"
        (.str "NonexistentApp") (.ok ()) (.ok ()) =
      { marks := [.started, .errored], commands := [], socketOpened := false,
        socketSends := [], resolved := true } := by
  have h := performAction_invalid_inputs_error [⟨"netflix", "Netflix"⟩]
    (.str "NonexistentApp") "Banana" (.ok ()) (.ok ())
  refine ⟨h.1 "fooAction" (by decide), ?_, h.2.2 (by rfl)⟩
  have h2 := performAction_invalid_inputs_error [⟨"netflix", "Netflix"⟩]
    (.str "Banana") "Banana" (.ok ()) (.ok ())
  exact h2.2.1 (by rfl) (by rfl)

/-- C8 evidence: the `deleteText` case completes without ever marking
the invocation started, and the pointer-socket success path (here the
"Left" key) resolves while the invocation is still only started, never
reaching a finished or error state. -/
theorem performAction_lifecycle_gaps :
    (LgTvDev.performAction [] "deleteText" (.num 3) (.ok ()) (.ok ())).marks
      = [.finished] ∧
    (LgTvDev.performAction [] "sendKeypress" (.str "Left") (.ok ())
      (.ok ())).marks = [.started] ∧
    (LgTvDev.performAction [] "sendKeypress" (.str "Left") (.ok ())
      (.ok ())).resolved = true ∧
    (LgTvDev.performAction [] "sendKeypress" (.str "Left") (.ok ())
      (.ok ())).socketSends = [("button", "LEFT")] :=
  ⟨rfl, rfl, rfl, rfl⟩

/-- C10: the label "Delete" is declared in the `sendKeypress` input
enumeration, yet its invocation falls through the keypress switch to the
unknown-key branch: it resolves in the error outcome with no protocol
command issued and no pointer socket opened. -/
theorem sendKeypress_delete_falls_through (apps : List LgTvDev.AppEntry)
    (reqOut sockOut : LgTvDev.Fetch Unit) :
    "Delete" ∈ LgTvDev.sendKeypressEnum ∧
    LgTvDev.performAction apps "sendKeypress" (.str "Delete") reqOut sockOut =
      { marks := [.started, .errored], commands := [], socketOpened := false,
        socketSends := [], resolved := true } :=
  ⟨by decide, rfl⟩

namespace LgTvAdapter

/-- A device registered with the host framework
(`handleDeviceAdded`): its id `lg-tv-<mac>`, MAC, address and the
transport client it owns. -/
structure RegDevice where
  id : String
  mac : String
  addr : String
  client : Nat
deriving DecidableEq

/-- One open `LGTV` transport client: a fresh handle plus the MAC and
address it was opened for. -/
structure ClientHandle where
  cid : Nat
  mac : String
  addr : String
deriving DecidableEq

/-- How far an in-flight `addDevice(addr)` call has progressed: which
asynchronous continuation it is waiting on.  After MAC resolution the
stage carries the resolved MAC; after client creation also the client
handle. -/
inductive Stage where
  | awaitMac : Stage
  | awaitKey : String → Stage
  | awaitConnect : String → Nat → Stage
  | awaitInit : String → Nat → Stage
deriving DecidableEq

/-- An in-flight `addDevice` call: the address it was invoked with and
its stage. -/
structure Attempt where
  addr : String
  stage : Stage
deriving DecidableEq

/-- The adapter state: the registered device map (`this.devices`, keyed
by id), the in-flight `addDevice` continuations, the open transport
clients, the client ids whose device has a running poll interval, and a
fresh-id counter. -/
structure AdapterState where
  devices : List RegDevice
  attempts : List (Nat × Attempt)
  clients : List ClientHandle
  pollTimers : List Nat
  nextId : Nat
deriving DecidableEq

/-- The adapter before any discovery activity. -/
def initialState : AdapterState := ⟨[], [], [], [], 0⟩

/-- Outcomes of the three initial fetches the `LgTvDevice` constructor
performs: `listApps`, `getForegroundAppInfo` (chained after it) and
`getVolume`. -/
structure InitFetches where
  listApps : LgTvDev.Fetch Unit
  foregroundApp : LgTvDev.Fetch Unit
  getVolume : LgTvDev.Fetch Unit
deriving DecidableEq

/-- Whether one fetch succeeded. -/
def fetchOk : LgTvDev.Fetch Unit → Bool
  | .ok _ => true
  | .err => false

/-- Whether `Promise.all(dev.promises)` resolves: the first promise is
the `listApps` request chained with the `getForegroundAppInfo` request,
the second is the `getVolume` request; all three must succeed
(lg-tv-device.js lines 134-235, part_002 lines 172-176). -/
def InitFetches.resolves (f : InitFetches) : Bool :=
  (fetchOk f.listApps && fetchOk f.foregroundApp) && fetchOk f.getVolume

/-- The asynchronous continuations the Node.js event loop can run, one
constructor per callback in the adapter source.  `callAddDevice` is an
SSDP response or configured-address cycle entering `addDevice`;
`macResolved` is `getMac`'s promise settling; `keyLoaded` is `loadKey`
settling (it never rejects: failures resolve with null); `connected` and
`connectError` are the transport events; `initSettled` is
`Promise.all(dev.promises)` settling with the three fetch outcomes;
`callRemoveThing` is the framework removing a device. -/
inductive Event where
  | callAddDevice : String → Event
  | macResolved : Nat → String → Event
  | keyLoaded : Nat → Event
  | connected : Nat → Event
  | connectError : Nat → Event
  | initSettled : Nat → InitFetches → Event
  | callRemoveThing : String → Event
deriving DecidableEq

/-- Observable calls into the host framework: `handleDeviceRemoved`,
`handleDeviceAdded` and the `setOn(true)` reuse of an existing entry. -/
inductive Obs where
  | deviceRemoved : String → String → Obs
  | deviceRegistered : String → String → String → Obs
  | setOnTrue : String → Obs
deriving DecidableEq

/-- The sentinel returned by `getMac` when the hardware lookup fails. -/
def zeroMac : String := "00:00:00:00:00:00"

/-- Split a character list at the dots, for the IPv4 shape test. -/
def splitDots : List Char → List (List Char)
  | [] => [[]]
  | c :: cs =>
      let r := splitDots cs
      if c = '.' then [] :: r
      else
        match r with
        | [] => [[c]]
        | g :: gs => (c :: g) :: gs

/-- Numeric value of one dotted group. -/
def octetVal (g : List Char) : Nat :=
  g.foldl (fun n c => n * 10 + (c.toNat - 48)) 0

/-- Whether one dotted group is a valid IPv4 octet. -/
def octetOk (g : List Char) : Bool :=
  decide (0 < g.length) && decide (g.length ≤ 3) &&
    g.all Char.isDigit && decide (octetVal g ≤ 255)

/-- Model of the external exact-match `ip-regex` test guarding
`addDevice`: four dot-separated decimal octets. -/
def ipOk (addr : String) : Bool :=
  let parts := splitDots addr.data
  parts.length == 4 && parts.all octetOk

/-- Look up an in-flight attempt by its id. -/
def lookupAttempt (l : List (Nat × Attempt)) (aid : Nat) : Option Attempt :=
  (l.find? (fun p => p.1 == aid)).map (·.2)

/-- Replace the stage of an attempt (normalizing it to the front). -/
def setAttempt (l : List (Nat × Attempt)) (aid : Nat) (a : Attempt) :
    List (Nat × Attempt) :=
  (aid, a) :: l.filter (fun p => !(p.1 == aid))

/-- Drop a finished or abandoned attempt. -/
def dropAttempt (l : List (Nat × Attempt)) (aid : Nat) :
    List (Nat × Attempt) :=
  l.filter (fun p => !(p.1 == aid))

/-- `id in this.devices` lookup. -/
def lookupDevice (l : List RegDevice) (id : String) : Option RegDevice :=
  l.find? (fun d => d.id == id)

/-- Remove a registered device by id (`handleDeviceRemoved`). -/
def removeDeviceById (l : List RegDevice) (id : String) : List RegDevice :=
  l.filter (fun d => !(d.id == id))

/-- `this.devices[id] = device` insertion performed by
`handleDeviceAdded`: overwrite by id. -/
def insertDevice (l : List RegDevice) (d : RegDevice) : List RegDevice :=
  d :: removeDeviceById l d.id

/-- One step of the adapter (part_002 lines 139-195): run the
continuation selected by the event against the current state, returning
the new state and the framework calls it makes.  `addDevice` checks the
address shape, then after MAC resolution drops the sentinel MAC, reuses
a registered entry at the same address (`setOn(true)`), removes a
registered entry at a different address (`removeThing`) and proceeds, or
proceeds directly; key load opens a fresh transport client; `connect`
constructs the `LgTvDevice`, which starts its poll interval without
keeping the handle anywhere; settling of the three initial fetches
registers the device only when all succeeded.  `removeThing` removes a
registered device but closes no transport client and clears no poll
interval, as the source does.  An event whose attempt is not in the
matching stage is a no-op (that continuation is not pending).  A
`connectError` abandons the attempt (the source only logs) and leaves
the client as it is. -/
def step (s : AdapterState) : Event → AdapterState × List Obs
  | .callAddDevice addr =>
      if ipOk addr then
        ({ s with attempts := (s.nextId, ⟨addr, .awaitMac⟩) :: s.attempts,
                  nextId := s.nextId + 1 }, [])
      else (s, [])
  | .macResolved aid mac =>
      match lookupAttempt s.attempts aid with
      | some ⟨addr, .awaitMac⟩ =>
          if mac == zeroMac then
            ({ s with attempts := dropAttempt s.attempts aid }, [])
          else
            match lookupDevice s.devices ("lg-tv-" ++ mac) with
            | some d =>
                if d.addr == addr then
                  ({ s with attempts := dropAttempt s.attempts aid },
                   [.setOnTrue ("lg-tv-" ++ mac)])
                else
                  ({ s with
                      devices := removeDeviceById s.devices ("lg-tv-" ++ mac),
                      attempts := setAttempt s.attempts aid ⟨addr, .awaitKey mac⟩ },
                   [.deviceRemoved ("lg-tv-" ++ mac) d.mac])
            | none =>
                ({ s with attempts := setAttempt s.attempts aid ⟨addr, .awaitKey mac⟩ }, [])
      | _ => (s, [])
  | .keyLoaded aid =>
      match lookupAttempt s.attempts aid with
      | some ⟨addr, .awaitKey mac⟩ =>
          ({ s with clients := ⟨s.nextId, mac, addr⟩ :: s.clients,
                    attempts := setAttempt s.attempts aid ⟨addr, .awaitConnect mac s.nextId⟩,
                    nextId := s.nextId + 1 }, [])
      | _ => (s, [])
  | .connected aid =>
      match lookupAttempt s.attempts aid with
      | some ⟨addr, .awaitConnect mac cid⟩ =>
          ({ s with pollTimers := cid :: s.pollTimers,
                    attempts := setAttempt s.attempts aid ⟨addr, .awaitInit mac cid⟩ }, [])
      | _ => (s, [])
  | .connectError aid =>
      match lookupAttempt s.attempts aid with
      | some _ => ({ s with attempts := dropAttempt s.attempts aid }, [])
      | none => (s, [])
  | .initSettled aid f =>
      match lookupAttempt s.attempts aid with
      | some ⟨addr, .awaitInit mac cid⟩ =>
          if f.resolves then
            ({ s with
                devices := insertDevice s.devices ⟨"lg-tv-" ++ mac, mac, addr, cid⟩,
                attempts := dropAttempt s.attempts aid },
             [.deviceRegistered ("lg-tv-" ++ mac) mac addr])
          else
            ({ s with attempts := dropAttempt s.attempts aid }, [])
      | _ => (s, [])
  | .callRemoveThing id =>
      match lookupDevice s.devices id with
      | some d =>
          ({ s with devices := removeDeviceById s.devices id },
           [.deviceRemoved id d.mac])
      | none => (s, [])

/-- Run a sequence of events, concatenating the framework calls. -/
def run (s : AdapterState) : List Event → AdapterState × List Obs
  | [] => (s, [])
  | e :: es =>
      let r := step s e
      let r2 := run r.1 es
      (r2.1, r.2 ++ r2.2)

/-- Number of open transport clients for one MAC. -/
def macClientCount (s : AdapterState) (mac : String) : Nat :=
  (s.clients.filter (fun c => c.mac == mac)).length

/-- The MAC a stage has resolved, if any. -/
def stageMac : Stage → Option String
  | .awaitMac => none
  | .awaitKey m => some m
  | .awaitConnect m _ => some m
  | .awaitInit m _ => some m

/-- Number of in-flight session-creation attempts for one MAC. -/
def macAttemptCount (s : AdapterState) (mac : String) : Nat :=
  (s.attempts.filter (fun p => stageMac p.2.stage == some mac)).length

/-- Number of registered devices for one MAC. -/
def regCountMac (s : AdapterState) (mac : String) : Nat :=
  (s.devices.filter (fun d => d.mac == mac)).length

end LgTvAdapter

namespace LgTvAdapter

/-- Well-formedness of the registered device list: ids are unique (it
embeds the object keyed by id) and every id has the `lg-tv-<mac>`
shape. -/
def DevListWF (l : List RegDevice) : Prop :=
  (l.map RegDevice.id).Nodup ∧ ∀ d ∈ l, d.id = "lg-tv-" ++ d.mac

theorem DevListWF.filter (p : RegDevice → Bool) {l : List RegDevice}
    (h : DevListWF l) : DevListWF (l.filter p) := by
  refine ⟨?_, ?_⟩
  · exact ((List.filter_sublist l).map RegDevice.id).nodup h.1
  · intro d hd
    exact h.2 d (List.mem_of_mem_filter hd)

theorem DevListWF.insert {l : List RegDevice} (h : DevListWF l)
    (d : RegDevice) (hd : d.id = "lg-tv-" ++ d.mac) :
    DevListWF (insertDevice l d) := by
  refine ⟨?_, ?_⟩
  · simp only [insertDevice, removeDeviceById, List.map_cons, List.nodup_cons]
    refine ⟨?_, ((List.filter_sublist l).map RegDevice.id).nodup h.1⟩
    intro hmem
    obtain ⟨x, hx, hxid⟩ := List.mem_map.mp hmem
    have := List.of_mem_filter hx
    simp only [Bool.not_eq_true', beq_eq_false_iff_ne, ne_eq] at this
    exact this hxid
  · intro x hx
    rcases List.mem_cons.mp hx with h1 | h1
    · exact h1 ▸ hd
    · exact h.2 x (List.mem_of_mem_filter h1)

theorem step_preserves_devListWF (s : AdapterState) (e : Event)
    (h : DevListWF s.devices) : DevListWF (step s e).1.devices := by
  cases e with
  | callAddDevice addr => simp only [step]; split <;> exact h
  | macResolved aid mac =>
      simp only [step]
      split
      · split
        · exact h
        · split
          · split
            · exact h
            · exact h.filter _
          · exact h
      · exact h
  | keyLoaded aid => simp only [step]; split <;> exact h
  | connected aid => simp only [step]; split <;> exact h
  | connectError aid => simp only [step]; split <;> exact h
  | initSettled aid f =>
      simp only [step]
      split
      · split
        · exact h.insert _ rfl
        · exact h
      · exact h
  | callRemoveThing id =>
      simp only [step]
      split
      · exact h.filter _
      · exact h

theorem run_preserves_devListWF (es : List Event) (s : AdapterState)
    (h : DevListWF s.devices) : DevListWF (run s es).1.devices := by
  induction es generalizing s with
  | nil => exact h
  | cons e es ih =>
      simp only [run]
      exact ih _ (step_preserves_devListWF s e h)

theorem initialState_devListWF : DevListWF initialState.devices := by
  constructor <;> simp [initialState]

/-- The interleaving refuting C1: `addDevice("192.0.2.5")` runs twice
(a configured address and an SSDP response, or two discovery cycles)
before the first attempt's session is registered; both continuations
pass the `id in this.devices` guard and both open a transport client
for the same MAC. -/
def c1Trace : List Event :=
  [.callAddDevice "192.0.2.5", .callAddDevice "192.0.2.5",
   .macResolved 0 "aa:bb:cc:dd:ee:ff", .macResolved 1 "aa:bb:cc:dd:ee:ff",
   .keyLoaded 0, .keyLoaded 1]

/-- A run that registers one device and leaves no attempt in flight. -/
def oneDeviceTrace : List Event :=
  [.callAddDevice "192.0.2.5", .macResolved 0 "aa:bb:cc:dd:ee:ff",
   .keyLoaded 0, .connected 0, .initSettled 0 ⟨.ok (), .ok (), .ok ()⟩]

end LgTvAdapter

/-- C1 counterexample: after the `c1Trace` interleaving the MAC
aa:bb:cc:dd:ee:ff is associated with two simultaneously open transport
clients, and after its first four events two session-creation attempts
for that MAC are in flight at once. -/
theorem two_open_clients_for_one_mac :
    LgTvAdapter.macClientCount
      (LgTvAdapter.run LgTvAdapter.initialState LgTvAdapter.c1Trace).1
      "aa:bb:cc:dd:ee:ff" = 2 ∧
    LgTvAdapter.macAttemptCount
      (LgTvAdapter.run LgTvAdapter.initialState
        (LgTvAdapter.c1Trace.take 4)).1 "aa:bb:cc:dd:ee:ff" = 2 := by
  decide

/-- C1 amended: what the `id in this.devices` guard does ensure is that
no MAC is ever associated with two simultaneously *registered* devices,
over every event sequence from the initial state; concurrent in-flight
attempts and open clients for one MAC remain possible. -/
theorem registered_devices_unique_per_mac (es : List LgTvAdapter.Event)
    (d1 d2 : LgTvAdapter.RegDevice)
    (h1 : d1 ∈ (LgTvAdapter.run LgTvAdapter.initialState es).1.devices)
    (h2 : d2 ∈ (LgTvAdapter.run LgTvAdapter.initialState es).1.devices)
    (hmac : d1.mac = d2.mac) : d1 = d2 := by
  have wf := LgTvAdapter.run_preserves_devListWF es LgTvAdapter.initialState
    LgTvAdapter.initialState_devListWF
  have hid : d1.id = d2.id := by rw [wf.2 d1 h1, wf.2 d2 h2, hmac]
  exact List.inj_on_of_nodup_map wf.1 h1 h2 hid

/-- Witness for the amended C1 at a run registering one device. -/
theorem registered_devices_unique_per_mac_witness :
    (⟨"lg-tv-aa:bb:cc:dd:ee:ff", "aa:bb:cc:dd:ee:ff", "192.0.2.5", 1⟩ :
        LgTvAdapter.RegDevice) ∈
      (LgTvAdapter.run LgTvAdapter.initialState
        LgTvAdapter.oneDeviceTrace).1.devices ∧
    (⟨"lg-tv-aa:bb:cc:dd:ee:ff", "aa:bb:cc:dd:ee:ff", "192.0.2.5", 1⟩ :
        LgTvAdapter.RegDevice) =
      ⟨"lg-tv-aa:bb:cc:dd:ee:ff", "aa:bb:cc:dd:ee:ff", "192.0.2.5", 1⟩ :=
  ⟨by decide,
   registered_devices_unique_per_mac LgTvAdapter.oneDeviceTrace _ _
     (by decide) (by decide) rfl⟩

namespace LgTvAdapter

theorem lookupAttempt_setAttempt (l : List (Nat × Attempt)) (aid : Nat)
    (a : Attempt) : lookupAttempt (setAttempt l aid a) aid = some a := by
  simp [lookupAttempt, setAttempt, List.find?_cons_of_pos]

theorem lookupAttempt_dropAttempt (l : List (Nat × Attempt)) (aid : Nat) :
    lookupAttempt (dropAttempt l aid) aid = none := by
  have h : (dropAttempt l aid).find? (fun p => p.1 == aid) = none := by
    rw [List.find?_eq_none]
    intro x hx
    have := List.of_mem_filter hx
    simpa using this
  simp [lookupAttempt, h]

theorem notMac_of_removed (l : List RegDevice) (mac : String)
    (hQ : ∀ x ∈ l, x.id = "lg-tv-" ++ x.mac) :
    ∀ a ∈ removeDeviceById l ("lg-tv-" ++ mac), ¬a.mac = mac := by
  intro x hx hxmac
  have hid := List.of_mem_filter hx
  simp only [Bool.not_eq_true', beq_eq_false_iff_ne, ne_eq] at hid
  exact hid (by rw [hQ x (List.mem_of_mem_filter hx), hxmac])

/-- The whole successful remainder of one `addDevice` flow once its MAC
resolves: key load, transport connect, and all three initial fetches
succeeding. -/
def resolveFlow (aid : Nat) (mac : String) : List Event :=
  [.macResolved aid mac, .keyLoaded aid, .connected aid,
   .initSettled aid ⟨.ok (), .ok (), .ok ()⟩]

/-- A state with one registered device at 192.0.2.5 and a fresh
`addDevice("192.0.2.9")` attempt awaiting MAC resolution. -/
def c2State : AdapterState :=
  (run initialState (oneDeviceTrace ++ [.callAddDevice "192.0.2.9"])).1

end LgTvAdapter

/-- C2: when an attempt's candidate resolves to a registered MAC at a
different address, the old device is removed strictly before the new
session is created, and the successful flow emits exactly one removal
followed by one registration for that MAC, with at most one device
registered for it at every intermediate state (none between removal and
registration, one at the end); when it resolves to the registered MAC at
the same address, the step only turns the existing entry on and drops
the attempt: no client is created and nothing else changes. -/
theorem known_mac_reconciliation (s : LgTvAdapter.AdapterState) (aid : Nat)
    (addr mac : String) (d : LgTvAdapter.RegDevice)
    (hA : LgTvAdapter.lookupAttempt s.attempts aid = some ⟨addr, .awaitMac⟩)
    (hmac : (mac == LgTvAdapter.zeroMac) = false)
    (hD : LgTvAdapter.lookupDevice s.devices ("lg-tv-" ++ mac) = some d)
    (hQ : ∀ x ∈ s.devices, x.id = "lg-tv-" ++ x.mac) :
    d.mac = mac ∧
    ((d.addr == addr) = false →
      (LgTvAdapter.run s (LgTvAdapter.resolveFlow aid mac)).2 =
        [.deviceRemoved ("lg-tv-" ++ mac) mac,
         .deviceRegistered ("lg-tv-" ++ mac) mac addr] ∧
      LgTvAdapter.regCountMac
        (LgTvAdapter.run s ((LgTvAdapter.resolveFlow aid mac).take 1)).1 mac = 0 ∧
      LgTvAdapter.regCountMac
        (LgTvAdapter.run s ((LgTvAdapter.resolveFlow aid mac).take 2)).1 mac = 0 ∧
      LgTvAdapter.regCountMac
        (LgTvAdapter.run s ((LgTvAdapter.resolveFlow aid mac).take 3)).1 mac = 0 ∧
      LgTvAdapter.regCountMac
        (LgTvAdapter.run s (LgTvAdapter.resolveFlow aid mac)).1 mac = 1) ∧
    ((d.addr == addr) = true →
      LgTvAdapter.step s (.macResolved aid mac) =
        ({ s with attempts := LgTvAdapter.dropAttempt s.attempts aid },
         [.setOnTrue ("lg-tv-" ++ mac)])) := by
  have hdmem : d ∈ s.devices := List.mem_of_find?_eq_some hD
  have hdid : d.id = "lg-tv-" ++ mac := by
    have := List.find?_some hD
    simpa using this
  have hdmac : d.mac = mac := by
    have hq := hQ d hdmem
    rw [hq] at hdid
    have hdata : ("lg-tv-" ++ d.mac).data = ("lg-tv-" ++ mac).data := by
      rw [hdid]
    simp only [String.data_append] at hdata
    exact String.ext (List.append_cancel_left hdata)
  have hQ' : ∀ x ∈ LgTvAdapter.removeDeviceById s.devices ("lg-tv-" ++ mac),
      x.id = "lg-tv-" ++ x.mac :=
    fun x hx => hQ x (List.mem_of_mem_filter hx)
  refine ⟨hdmac, ?_, ?_⟩
  · intro haddr
    refine ⟨?_, ?_, ?_, ?_, ?_⟩
    · simp [LgTvAdapter.resolveFlow, LgTvAdapter.run, LgTvAdapter.step, hA,
        hmac, hD, haddr, LgTvAdapter.lookupAttempt_setAttempt,
        LgTvAdapter.InitFetches.resolves, LgTvAdapter.fetchOk, hdmac]
    · simp only [LgTvAdapter.resolveFlow, List.take, LgTvAdapter.run]
      simp [LgTvAdapter.step, hA, hmac, hD, haddr, LgTvAdapter.regCountMac]
      exact LgTvAdapter.notMac_of_removed s.devices mac hQ
    · simp only [LgTvAdapter.resolveFlow, List.take, LgTvAdapter.run]
      simp [LgTvAdapter.step, hA, hmac, hD, haddr,
        LgTvAdapter.lookupAttempt_setAttempt, LgTvAdapter.regCountMac]
      exact LgTvAdapter.notMac_of_removed s.devices mac hQ
    · simp only [LgTvAdapter.resolveFlow, List.take, LgTvAdapter.run]
      simp [LgTvAdapter.step, hA, hmac, hD, haddr,
        LgTvAdapter.lookupAttempt_setAttempt, LgTvAdapter.regCountMac]
      exact LgTvAdapter.notMac_of_removed s.devices mac hQ
    · simp only [LgTvAdapter.resolveFlow, LgTvAdapter.run]
      simp [LgTvAdapter.step, hA, hmac, hD, haddr,
        LgTvAdapter.lookupAttempt_setAttempt, LgTvAdapter.InitFetches.resolves,
        LgTvAdapter.fetchOk, LgTvAdapter.regCountMac, LgTvAdapter.insertDevice]
      exact LgTvAdapter.notMac_of_removed
        (LgTvAdapter.removeDeviceById s.devices ("lg-tv-" ++ mac)) mac hQ'
  · intro haddr
    simp [LgTvAdapter.step, hA, hmac, hD, haddr]

/-- Witness for C2: the spec's scenario, a device registered at
192.0.2.5 rediscovered at 192.0.2.9; exactly one removal then one
registration, one registered device for the MAC at the end. -/
theorem known_mac_reconciliation_witness :
    (LgTvAdapter.run LgTvAdapter.c2State
        (LgTvAdapter.resolveFlow 2 "aa:bb:cc:dd:ee:ff")).2 =
      [.deviceRemoved ("lg-tv-" ++ "aa:bb:cc:dd:ee:ff") "aa:bb:cc:dd:ee:ff",
       .deviceRegistered ("lg-tv-" ++ "aa:bb:cc:dd:ee:ff") "aa:bb:cc:dd:ee:ff"
         "192.0.2.9"] ∧
    LgTvAdapter.regCountMac
      (LgTvAdapter.run LgTvAdapter.c2State
        (LgTvAdapter.resolveFlow 2 "aa:bb:cc:dd:ee:ff")).1
      "aa:bb:cc:dd:ee:ff" = 1 := by
  have h := known_mac_reconciliation LgTvAdapter.c2State 2 "192.0.2.9"
    "aa:bb:cc:dd:ee:ff"
    ⟨"lg-tv-aa:bb:cc:dd:ee:ff", "aa:bb:cc:dd:ee:ff", "192.0.2.5", 1⟩
    (by decide) (by decide) (by decide) (by decide)
  have hb := h.2.1 (by decide)
  exact ⟨hb.1, hb.2.2.2.2⟩

/-- C6: settling of the mandatory initial fetches registers the device
if and only if all three fetches (app list, foreground app,
volume/mute) succeeded; any failure aborts the whole creation — no
registration, the device map untouched, the attempt gone — and a later
`addDevice` call for the same address starts a fresh attempt, so the
identity stays eligible for retry. -/
theorem init_failure_aborts_registration (s : LgTvAdapter.AdapterState)
    (aid : Nat) (addr mac : String) (cid : Nat)
    (f : LgTvAdapter.InitFetches)
    (hA : LgTvAdapter.lookupAttempt s.attempts aid =
      some ⟨addr, .awaitInit mac cid⟩)
    (hip : LgTvAdapter.ipOk addr = true) :
    ((LgTvAdapter.step s (.initSettled aid f)).2 =
        [.deviceRegistered ("lg-tv-" ++ mac) mac addr] ↔
      (LgTvAdapter.fetchOk f.listApps = true ∧
       LgTvAdapter.fetchOk f.foregroundApp = true ∧
       LgTvAdapter.fetchOk f.getVolume = true)) ∧
    (f.resolves = false →
      (LgTvAdapter.step s (.initSettled aid f)).1.devices = s.devices ∧
      (LgTvAdapter.step s (.initSettled aid f)).2 = [] ∧
      LgTvAdapter.lookupAttempt
        (LgTvAdapter.step s (.initSettled aid f)).1.attempts aid = none ∧
      (LgTvAdapter.step (LgTvAdapter.step s (.initSettled aid f)).1
          (.callAddDevice addr)).1.attempts =
        ((LgTvAdapter.step s (.initSettled aid f)).1.nextId,
          ⟨addr, .awaitMac⟩) ::
          (LgTvAdapter.step s (.initSettled aid f)).1.attempts) := by
  cases hr : f.resolves with
  | true =>
      constructor
      · simp only [LgTvAdapter.step, hA, hr, if_true]
        have := hr
        simp only [LgTvAdapter.InitFetches.resolves, Bool.and_eq_true] at this
        simp [this.1.1, this.1.2, this.2]
      · intro hfalse
        exact absurd hfalse (by simp)
  | false =>
      constructor
      · constructor
        · intro hobs
          exfalso
          revert hobs
          simp [LgTvAdapter.step, hA, hr]
        · intro hok
          exfalso
          have : f.resolves = true := by
            simp [LgTvAdapter.InitFetches.resolves, hok.1, hok.2.1, hok.2.2]
          exact absurd (hr.symm.trans this) (by simp)
      · intro _
        refine ⟨?_, ?_, ?_, ?_⟩
        · simp [LgTvAdapter.step, hA, hr]
        · simp [LgTvAdapter.step, hA, hr]
        · simp [LgTvAdapter.step, hA, hr, LgTvAdapter.lookupAttempt_dropAttempt]
        · simp [LgTvAdapter.step, hA, hr, hip]

/-- Witness for C6: a connected attempt whose foreground-app fetch
fails; nothing is registered, the device map stays empty, and a later
`addDevice("192.0.2.5")` spawns a fresh attempt. -/
theorem init_failure_aborts_registration_witness :
    ((LgTvAdapter.step
        (LgTvAdapter.run LgTvAdapter.initialState
          [.callAddDevice "192.0.2.5",
           .macResolved 0 "aa:bb:cc:dd:ee:ff",
           .keyLoaded 0, .connected 0]).1
        (.initSettled 0 ⟨.ok (), .err, .ok ()⟩)).2 =
      [.deviceRegistered ("lg-tv-" ++ "aa:bb:cc:dd:ee:ff")
        "aa:bb:cc:dd:ee:ff" "192.0.2.5"] ↔
      (LgTvAdapter.fetchOk (LgTvDev.Fetch.ok ()) = true ∧
       LgTvAdapter.fetchOk LgTvDev.Fetch.err = true ∧
       LgTvAdapter.fetchOk (LgTvDev.Fetch.ok ()) = true)) ∧
    (LgTvAdapter.InitFetches.resolves ⟨.ok (), .err, .ok ()⟩ = false →
      (LgTvAdapter.step
        (LgTvAdapter.run LgTvAdapter.initialState
          [.callAddDevice "192.0.2.5",
           .macResolved 0 "aa:bb:cc:dd:ee:ff",
           .keyLoaded 0, .connected 0]).1
        (.initSettled 0 ⟨.ok (), .err, .ok ()⟩)).1.devices =
        (LgTvAdapter.run LgTvAdapter.initialState
          [.callAddDevice "192.0.2.5",
           .macResolved 0 "aa:bb:cc:dd:ee:ff",
           .keyLoaded 0, .connected 0]).1.devices ∧
      (LgTvAdapter.step
        (LgTvAdapter.run LgTvAdapter.initialState
          [.callAddDevice "192.0.2.5",
           .macResolved 0 "aa:bb:cc:dd:ee:ff",
           .keyLoaded 0, .connected 0]).1
        (.initSettled 0 ⟨.ok (), .err, .ok ()⟩)).2 = [] ∧
      LgTvAdapter.lookupAttempt
        (LgTvAdapter.step
          (LgTvAdapter.run LgTvAdapter.initialState
            [.callAddDevice "192.0.2.5",
             .macResolved 0 "aa:bb:cc:dd:ee:ff",
             .keyLoaded 0, .connected 0]).1
          (.initSettled 0 ⟨.ok (), .err, .ok ()⟩)).1.attempts 0 = none ∧
      (LgTvAdapter.step
        (LgTvAdapter.step
          (LgTvAdapter.run LgTvAdapter.initialState
            [.callAddDevice "192.0.2.5",
             .macResolved 0 "aa:bb:cc:dd:ee:ff",
             .keyLoaded 0, .connected 0]).1
          (.initSettled 0 ⟨.ok (), .err, .ok ()⟩)).1
        (.callAddDevice "192.0.2.5")).1.attempts =
        ((LgTvAdapter.step
          (LgTvAdapter.run LgTvAdapter.initialState
            [.callAddDevice "192.0.2.5",
             .macResolved 0 "aa:bb:cc:dd:ee:ff",
             .keyLoaded 0, .connected 0]).1
          (.initSettled 0 ⟨.ok (), .err, .ok ()⟩)).1.nextId,
          ⟨"192.0.2.5", .awaitMac⟩) ::
          (LgTvAdapter.step
            (LgTvAdapter.run LgTvAdapter.initialState
              [.callAddDevice "192.0.2.5",
               .macResolved 0 "aa:bb:cc:dd:ee:ff",
               .keyLoaded 0, .connected 0]).1
            (.initSettled 0 ⟨.ok (), .err, .ok ()⟩)).1.attempts) :=
  init_failure_aborts_registration _ 0 "192.0.2.5" "aa:bb:cc:dd:ee:ff" 1
    ⟨.ok (), .err, .ok ()⟩ (by decide) (by decide)

/-- C9 evidence: removing the registered device leaves its poll
interval running (the constructor discards the `setInterval` handle and
`removeThing` clears no interval) and its transport client open: after
teardown the device map is empty but the poll timer for client 1 is
still scheduled. -/
theorem poll_timer_survives_removal :
    (LgTvAdapter.run LgTvAdapter.initialState
      (LgTvAdapter.oneDeviceTrace ++
        [.callRemoveThing ("lg-tv-" ++ "aa:bb:cc:dd:ee:ff")])).2 =
      [.deviceRegistered ("lg-tv-" ++ "aa:bb:cc:dd:ee:ff")
        "aa:bb:cc:dd:ee:ff" "192.0.2.5",
       .deviceRemoved ("lg-tv-" ++ "aa:bb:cc:dd:ee:ff")
        "aa:bb:cc:dd:ee:ff"] ∧
    (LgTvAdapter.run LgTvAdapter.initialState
      (LgTvAdapter.oneDeviceTrace ++
        [.callRemoveThing ("lg-tv-" ++ "aa:bb:cc:dd:ee:ff")])).1.devices = [] ∧
    (LgTvAdapter.run LgTvAdapter.initialState
      (LgTvAdapter.oneDeviceTrace ++
        [.callRemoveThing ("lg-tv-" ++ "aa:bb:cc:dd:ee:ff")])).1.pollTimers =
      [1] ∧
    (LgTvAdapter.run LgTvAdapter.initialState
      (LgTvAdapter.oneDeviceTrace ++
        [.callRemoveThing ("lg-tv-" ++ "aa:bb:cc:dd:ee:ff")])).1.clients =
      [⟨1, "aa:bb:cc:dd:ee:ff", "192.0.2.5"⟩] := by
  decide
